import Mathlib

/-!
Verification of the github-star-watch repository core: the polling and
threshold state machine in `github.go` and the CLI composition in
`cmd/github-stargazer/main.go`. The Go code is shallowly embedded: Go
`int` and `time.Duration` become `Int` (durations in nanoseconds), the
HTTP exchange of one fetch becomes an explicit `HTTPResponse` value, the
hook invocation becomes a `Bool` in the tick result, and the stop channel
becomes a small `ChanState` automaton where `Option` models a runtime
panic on closing a nil or already-closed channel.
-/

namespace StarWatch

/-- Go channel lifecycle for `stopCh`: `nil` is the zero value before
`Gaze` allocates the channel, `open_` after `make`, `closed` after
`close`. -/
inductive ChanState
  | nil
  | open_
  | closed
  deriving DecidableEq, Repr

/-- Go `close(ch)`: panics (modelled as `none`) on a nil channel and on an
already-closed channel. -/
def closeChan : ChanState → Option ChanState
  | ChanState.nil => none
  | ChanState.open_ => some ChanState.closed
  | ChanState.closed => none

/-- The `GitHubStargazer` struct from `github.go`. The hook function is
not stored: hook invocation is reported as a `Bool` by the tick
operations. `tickerActive` models `ticker.C != nil` (the field `Pause`
sets to nil), and `stopCh` models the stop channel lifecycle. -/
structure GitHubStargazer where
  Repository : String
  StargazersTarget : Int
  Interval : Int
  stargazersCount : Int
  etag : String
  token : String
  stopCh : ChanState
  tickerActive : Bool
  deriving DecidableEq, Repr

/-- `NewGitHubStargazer` from `github.go`: rejects an empty repository and
a target below 1, then builds the struct (count 0, empty etag and token,
nil stop channel) and applies the functional options in order. -/
def NewGitHubStargazer (repo : String) (target : Int) (interval : Int)
    (options : List (GitHubStargazer → GitHubStargazer)) :
    Except String GitHubStargazer :=
  if repo = "" then Except.error "repository must be specified"
  else if target < 1 then Except.error "target stargazers must be at least 1"
  else Except.ok (options.foldl (fun sg o => o sg)
    { Repository := repo
      StargazersTarget := target
      Interval := interval
      stargazersCount := 0
      etag := ""
      token := ""
      stopCh := ChanState.nil
      tickerActive := false })

/-- The `WithGitHubToken` option from `github.go`. -/
def WithGitHubToken (token : String) : GitHubStargazer → GitHubStargazer :=
  fun sg => { sg with token := token }

/-- `StargazersCount` from `github.go`. -/
def StargazersCount (sg : GitHubStargazer) : Int :=
  sg.stargazersCount

/-- `updateStargazersCount` from `github.go`: stores the latest count and
returns the previously stored one. -/
def updateStargazersCount (sg : GitHubStargazer) (latest : Int) :
    GitHubStargazer × Int :=
  ({ sg with stargazersCount := latest }, sg.stargazersCount)

/-- `didNotPassThreshold` from `github.go`. Note the second disjunct
compares `old` with `current`, not with the target. -/
def didNotPassThreshold (sg : GitHubStargazer) (old current : Int) : Bool :=
  decide (current < sg.StargazersTarget) || decide (old ≥ current)

/-- Body of the GitHub API response to one fetch: a decodable JSON
payload carrying `stargazers_count`, or a malformed payload. -/
inductive BodyResult
  | valid (count : Int)
  | malformed
  deriving DecidableEq, Repr

/-- One HTTP exchange of `fetchStargazersCount`: transport error, 304 Not
Modified, a non-200 status, or 200 with an ETag header (possibly empty)
and a body. -/
inductive HTTPResponse
  | transportError
  | notModified
  | badStatus
  | ok (etag : String) (body : BodyResult)
  deriving DecidableEq, Repr

/-- Result of `fetchStargazersCount`: the (possibly updated) struct, the
returned count, and whether a non-nil error was returned. In Go the
count assigned on the error paths is -1. -/
structure FetchOut where
  state : GitHubStargazer
  count : Int
  isError : Bool
  deriving DecidableEq, Repr

/-- `fetchStargazersCount` from `github.go`: on transport error or a bad
status it returns -1 and an error with the struct unchanged; on 304 it
returns the stored count with nil error; on 200 it first stores a new
non-empty ETag that differs from the stored one, then decodes the body
(-1 and an error on a malformed payload). -/
def fetchStargazersCount (sg : GitHubStargazer) (resp : HTTPResponse) :
    FetchOut :=
  match resp with
  | HTTPResponse.transportError => ⟨sg, -1, true⟩
  | HTTPResponse.notModified => ⟨sg, StargazersCount sg, false⟩
  | HTTPResponse.badStatus => ⟨sg, -1, true⟩
  | HTTPResponse.ok etag body =>
    let sg1 := if etag ≠ "" ∧ etag ≠ sg.etag then { sg with etag := etag } else sg
    match body with
    | BodyResult.valid c => ⟨sg1, c, false⟩
    | BodyResult.malformed => ⟨sg1, -1, true⟩

/-- The If-None-Match header sent by `fetchStargazersCount`: the stored
ETag when non-empty, nothing otherwise. -/
def fetchRequestETag (sg : GitHubStargazer) : Option String :=
  if sg.etag = "" then none else some sg.etag

/-- One iteration of the `Gaze` loop body on a ticker tick, from
`github.go`: fetch; on error continue without touching the count; else
store the new count, remember the previous one, and invoke the hook
unless `didNotPassThreshold`. The returned `Bool` says whether the hook
was invoked (a hook error is only logged). -/
def gazeTick (sg : GitHubStargazer) (resp : HTTPResponse) :
    GitHubStargazer × Bool :=
  let out := fetchStargazersCount sg resp
  if out.isError then (out.state, false)
  else
    let (sg1, previous) := updateStargazersCount out.state out.count
    if didNotPassThreshold sg1 previous out.count then (sg1, false)
    else (sg1, true)

/-- Hook-invocation trace of the `Gaze` loop over a sequence of
successful fetches (status 200, no ETag header, well-formed body carrying
the given count): one `Bool` per tick. -/
def gazeFired (sg : GitHubStargazer) : List Int → List Bool
  | [] => []
  | c :: rest =>
    let r := gazeTick sg (HTTPResponse.ok "" (BodyResult.valid c))
    r.2 :: gazeFired r.1 rest

/-- `Gaze` start-up from `github.go`: allocate the ticker and the stop
channel. -/
def gazeInit (sg : GitHubStargazer) : GitHubStargazer :=
  { sg with tickerActive := true, stopCh := ChanState.open_ }

/-- `Pause` from `github.go`: a no-op when the ticker or its channel is
already nil, otherwise stop the ticker and nil its channel. -/
def Pause (sg : GitHubStargazer) : GitHubStargazer :=
  if sg.tickerActive then { sg with tickerActive := false } else sg

/-- `Stop` from `github.go`: unconditionally close the stop channel.
`none` models the Go runtime panic on closing a nil or already-closed
channel. -/
def Stop (sg : GitHubStargazer) : Option GitHubStargazer :=
  (closeChan sg.stopCh).map (fun c => { sg with stopCh := c })

/-- An event delivered to the `select` of the `Gaze` loop: a ticker tick
(with the HTTP exchange it triggers) or the stop signal. -/
inductive GazeEvent
  | tick (resp : HTTPResponse)
  | stop
  deriving DecidableEq, Repr

/-- An observable action of the `Gaze` loop: a fetch was performed, the
hook was invoked, or the loop returned after the stop signal. -/
inductive GazeAction
  | fetch
  | hook
  | stopped
  deriving DecidableEq, Repr

/-- Finite-trace semantics of the `Gaze` loop from `github.go`: the
actions emitted while consuming a prefix of `select` events, and the
struct state afterwards. A ticker tick always performs a fetch and then
runs `gazeTick`; the stop signal makes the loop return at once. The loop
body performs no fetch outside a ticker tick (the source notes this in a
TODO: the first fetch happens only after the first interval). -/
def gazeLoop (sg : GitHubStargazer) :
    List GazeEvent → List GazeAction × GitHubStargazer
  | [] => ([], sg)
  | GazeEvent.stop :: _ => ([GazeAction.stopped], sg)
  | GazeEvent.tick resp :: rest =>
    let r := gazeTick sg resp
    let more := gazeLoop r.1 rest
    ((GazeAction.fetch :: (if r.2 then [GazeAction.hook] else [])) ++ more.1,
      more.2)

/-- `FetchStargazerCount` from `github.go`: fetch (an error is only
logged), store whatever count came back, and return the stored count with
a nil error (the `Option String` component, always `none`). -/
def FetchStargazerCount (sg : GitHubStargazer) (resp : HTTPResponse) :
    (GitHubStargazer × Int) × Option String :=
  let out := fetchStargazersCount sg resp
  let sg1 := (updateStargazersCount out.state out.count).1
  ((sg1, StargazersCount sg1), none)

/-- HTTP outcome of the starring PUT request in `Star`: transport error
or a status code. -/
inductive StarResponse
  | transportError
  | status (code : Nat)
  deriving DecidableEq, Repr

/-- `Star` from `github.go`: error when the token is empty, on a
transport error, and on any status other than 200, 201 or 204; nil
otherwise. -/
def Star (sg : GitHubStargazer) (resp : StarResponse) : Except String Unit :=
  if sg.token = "" then
    Except.error ("cannot star " ++ sg.Repository ++ ": GitHub token is empty")
  else
    match resp with
    | StarResponse.transportError => Except.error "error reaching GitHub API"
    | StarResponse.status code =>
      if code ≠ 200 ∧ code ≠ 201 ∧ code ≠ 204 then
        Except.error ("error starring " ++ sg.Repository)
      else Except.ok ()

/-- The `starRepo` closure from `cmd/github-stargazer/main.go`: no-op
when starring is disabled; a `Star` error is returned; after a successful
star, `FetchStargazerCount` runs and the closure returns nil whether or
not that re-fetch reported an error (both branches only differ in the SMS
text). -/
def starRepo (starFlag : Bool) (sg : GitHubStargazer) (sresp : StarResponse)
    (fresp : HTTPResponse) : GitHubStargazer × Except String Unit :=
  if starFlag = false then (sg, Except.ok ())
  else
    match Star sg sresp with
    | Except.error e => (sg, Except.error e)
    | Except.ok _ =>
      let p := FetchStargazerCount sg fresp
      match p.2 with
      | some _ => (p.1.1, Except.ok ())
      | none => (p.1.1, Except.ok ())

/-- One nanosecond short of Go `time.Second`, as used by the interval
check in `setup`. -/
def timeSecond : Int := 1000000000

/-- The validation-and-construction pipeline of `setup` from
`cmd/github-stargazer/main.go`, restricted to the watcher: reject target
zero, an empty repository, and an interval below one second, in that
order, then build the watcher with `NewGitHubStargazer`. The Twilio and
option plumbing is omitted: it cannot turn a rejection into a success.
The target flag is a Go `uint`, hence `Nat`. -/
def setupGazer (repo : String) (target : Nat) (interval : Int) :
    Except String GitHubStargazer :=
  if target = 0 then Except.error "target stargazers must be greater than zero"
  else if repo = "" then Except.error "repo is required"
  else if interval < timeSecond then Except.error "minimum interval is one second"
  else NewGitHubStargazer repo (Int.ofNat target) interval []

/-- The hook-firing pattern the specification claims for a run of
successful fetches: fire exactly when the previously stored count is
below the target and the new count reaches it (one firing per upward
crossing). -/
def crossingFlags (target : Int) : Int → List Int → List Bool
  | _, [] => []
  | prev, c :: rest =>
    (decide (prev < target) && decide (target ≤ c)) :: crossingFlags target c rest

/-- The hook-firing pattern the code actually implements on successful
fetches: fire exactly when the new count is at or above the target and
strictly above the previously stored count. -/
def firedFlags (target : Int) : Int → List Int → List Bool
  | _, [] => []
  | prev, c :: rest =>
    (decide (target ≤ c) && decide (prev < c)) :: firedFlags target c rest

/-- A fresh watcher for the repository with target 100, poll interval one
minute, as `NewGitHubStargazer` builds it. -/
def w100 : GitHubStargazer :=
  { Repository := "ianfoo/github-star-watch"
    StargazersTarget := 100
    Interval := 60000000000
    stargazersCount := 0
    etag := ""
    token := ""
    stopCh := ChanState.nil
    tickerActive := false }

/-- The approach-threshold configuration of `setup` in
`cmd/github-stargazer/main.go`: repository, final target, approach
threshold, coarse interval, fine approach interval. -/
structure ApproachSetup where
  repo : String
  target : Nat
  approach : Nat
  interval : Int
  approachInterval : Int
  deriving DecidableEq, Repr

/-- Which watcher is polling in the approach-threshold composition: the
original watcher (whose target is the approach threshold), or, after the
handoff, the replacement watcher (with the real target), keeping the
paused original alongside. -/
inductive ApproachPhase
  | first (sg : GitHubStargazer)
  | second (old : GitHubStargazer) (sg : GitHubStargazer)
  deriving DecidableEq, Repr

/-- One tick of the approach-threshold composition from
`cmd/github-stargazer/main.go`. While the original watcher polls, its
hook is the handoff closure: when it fires, the original is paused, a
replacement watcher is built by `NewGitHubStargazer` with the real target
and the approach interval, and its loop is started; the final
notification hook is not invoked on that tick. After the handoff, ticks
run on the replacement watcher, whose hook is the final notification
hook (`makeHook`). The `Bool` reports a final-hook invocation; `none`
models a construction error inside the handoff closure. -/
def approachTick (cfg : ApproachSetup) (ph : ApproachPhase)
    (resp : HTTPResponse) : Option (ApproachPhase × Bool) :=
  match ph with
  | ApproachPhase.first sg =>
    let r := gazeTick sg resp
    if r.2 then
      match NewGitHubStargazer cfg.repo (Int.ofNat cfg.target)
          cfg.approachInterval [] with
      | Except.error _ => none
      | Except.ok n =>
        some (ApproachPhase.second (Pause r.1) (gazeInit n), false)
    else some (ApproachPhase.first r.1, false)
  | ApproachPhase.second old sg =>
    let r := gazeTick sg resp
    some (ApproachPhase.second old r.1, r.2)

/-- Iterated `approachTick` over a list of fetch responses, collecting
final-hook invocations. -/
def approachRun (cfg : ApproachSetup) (ph : ApproachPhase) :
    List HTTPResponse → Option (ApproachPhase × List Bool)
  | [] => some (ph, [])
  | r :: rest =>
    match approachTick cfg ph r with
    | none => none
    | some pr =>
      match approachRun cfg pr.1 rest with
      | none => none
      | some pf => some (pf.1, pr.2 :: pf.2)

/-- A successful fetch (status 200, no ETag header) reporting `c`. -/
def okCount (c : Int) : HTTPResponse :=
  HTTPResponse.ok "" (BodyResult.valid c)

/-- The approach configuration of claim C8: approach threshold 90, final
target 100. -/
def approachCfg : ApproachSetup :=
  { repo := "ianfoo/github-star-watch"
    target := 100
    approach := 90
    interval := 60000000000
    approachInterval := 1000000000 }

/-- The original watcher of the C8 scenario as `NewGitHubStargazer`
builds it: target is the approach threshold 90. -/
def c8First : GitHubStargazer :=
  { Repository := "ianfoo/github-star-watch"
    StargazersTarget := 90
    Interval := 60000000000
    stargazersCount := 0
    etag := ""
    token := ""
    stopCh := ChanState.nil
    tickerActive := false }

/-- The original watcher after the handoff of the C8 scenario: count 95,
ticker paused, stop channel still open. -/
def c8Old : GitHubStargazer :=
  { Repository := "ianfoo/github-star-watch"
    StargazersTarget := 90
    Interval := 60000000000
    stargazersCount := 95
    etag := ""
    token := ""
    stopCh := ChanState.open_
    tickerActive := false }

/-- The replacement watcher of the C8 scenario right after the handoff:
real target 100, fine interval, fresh count 0, loop started. -/
def c8New : GitHubStargazer :=
  { Repository := "ianfoo/github-star-watch"
    StargazersTarget := 100
    Interval := 1000000000
    stargazersCount := 0
    etag := ""
    token := ""
    stopCh := ChanState.open_
    tickerActive := true }

/-- Reduction of one `Gaze` tick on a successful fetch with no ETag
header: the count is stored, and the hook runs exactly when the new count
is at or above the target and strictly above the stored count. -/
lemma gazeTick_okCount (sg : GitHubStargazer) (c : Int) :
    gazeTick sg (okCount c) =
      ({ sg with stargazersCount := c },
        decide (sg.StargazersTarget ≤ c) && decide (sg.stargazersCount < c)) := by
  by_cases h1 : c < sg.StargazersTarget <;>
    by_cases h2 : sg.stargazersCount ≥ c <;>
      simp [gazeTick, okCount, fetchStargazersCount, updateStargazersCount,
        didNotPassThreshold, StargazersCount, h1, h2] <;>
      omega

/-- C1 (amended): over any sequence of successful fetches, the hook is
invoked exactly on the ticks whose fetched count is at or above the
target and strictly above the previously stored count. In particular it
fires once per upward crossing and never while the count is below the
target, but it fires again whenever the count increases further while
staying at or above the target. -/
theorem gazeFired_eq_firedFlags (sg : GitHubStargazer) (counts : List Int) :
    gazeFired sg counts =
      firedFlags sg.StargazersTarget sg.stargazersCount counts := by
  induction counts generalizing sg with
  | nil => rfl
  | cons c rest ih =>
    have h := gazeTick_okCount sg c
    simp only [gazeFired, okCount] at *
    rw [h, firedFlags]
    simp [ih]

/-- C1 (counterexample): with target 100 and stored count 0, the
successful fetch sequence [100, 150] makes the hook fire on both ticks,
whereas the claimed pattern (fire only on an upward crossing of the
target) fires only on the first: on the second tick the previously
stored count 100 is not below the target, yet the hook runs. -/
theorem hook_not_only_on_crossing :
    gazeFired w100 [100, 150] = [true, true] ∧
    crossingFlags 100 0 [100, 150] = [true, false] :=
  ⟨rfl, rfl⟩

/-- C2 (counterexample): with target 100 and stored count 0, the fetch
sequence [50, 80, 99, 100, 150] makes the hook fire twice, on the ticks
fetching 100 and 150, not exactly once as claimed. -/
theorem sequence_c2_fires_twice_not_once :
    gazeFired w100 [50, 80, 99, 100, 150] =
      [false, false, false, true, true] ∧
    (gazeFired w100 [50, 80, 99, 100, 150]).count true ≠ 1 := by
  constructor
  · rfl
  · decide

/-- C2 (amended): with target 100 and stored count 0, the fetch sequence
[50, 80, 99, 100, 150] invokes the hook exactly twice: on the tick
fetching 100 and again on the tick fetching 150. -/
theorem sequence_c2_flags :
    gazeFired w100 [50, 80, 99, 100, 150] =
      [false, false, false, true, true] ∧
    (gazeFired w100 [50, 80, 99, 100, 150]).count true = 2 := by
  constructor
  · rfl
  · decide

/-- C5: on a tick whose fetch reports 304 Not Modified, the watcher state
(count, ETag, everything) is unchanged and the hook is not invoked; the
statement is universal over watcher states, so it covers in particular a
stored count already equal to the target. -/
theorem gazeTick_notModified (sg : GitHubStargazer) :
    gazeTick sg HTTPResponse.notModified = (sg, false) := by
  simp [gazeTick, fetchStargazersCount, updateStargazersCount,
    didNotPassThreshold, StargazersCount]

/-- C3: the construction pipeline of `setup` rejects every input with
target zero, an empty repository, or a poll interval below one second: an
error is returned and no watcher is produced, so no loop is started. -/
theorem setupGazer_rejects_invalid (repo : String) (target : Nat)
    (interval : Int)
    (h : target = 0 ∨ repo = "" ∨ interval < timeSecond) :
    ∃ e, setupGazer repo target interval = Except.error e := by
  unfold setupGazer
  rcases h with h | h | h
  · simp [h]
  · by_cases ht : target = 0
    · simp [ht]
    · simp [ht, h]
  · by_cases ht : target = 0
    · simp [ht]
    · by_cases hr : repo = ""
      · simp [ht, hr]
      · simp [ht, hr, h]

/-- Witness for C3 at a concrete invalid input (target zero). -/
theorem setupGazer_rejects_invalid_witness :
    ∃ e, setupGazer "ianfoo/github-star-watch" 0 60000000000 =
      Except.error e :=
  setupGazer_rejects_invalid "ianfoo/github-star-watch" 0 60000000000
    (Or.inl rfl)

/-- C4 (code evaluated at the failing input): before the first ticker
tick the `Gaze` loop emits no action at all, in particular no fetch; the
first fetch happens only in response to the first ticker tick, which
arrives a full interval after start. This contradicts the claimed
immediate fetch, and matches the TODO in `Gaze` that asks for the
immediate run to be added. -/
theorem gaze_no_fetch_before_first_tick :
    (gazeLoop w100 []).1 = [] ∧
    (gazeLoop w100 [GazeEvent.tick (okCount 1)]).1 = [GazeAction.fetch] :=
  ⟨rfl, rfl⟩

/-- C6: once the stop signal is received by the `Gaze` loop, the loop
returns at once: the events delivered after it (here an arbitrary list
`rest` of would-be ticker ticks) contribute no action, so no further
fetch and no further hook invocation ever occurs. -/
theorem gazeLoop_stop_halts (sg : GitHubStargazer) (evs rest : List GazeEvent)
    (h : GazeEvent.stop ∉ evs) :
    gazeLoop sg (evs ++ GazeEvent.stop :: rest) =
      ((gazeLoop sg evs).1 ++ [GazeAction.stopped], (gazeLoop sg evs).2) := by
  induction evs generalizing sg with
  | nil => rfl
  | cons e tl ih =>
    cases e with
    | stop => exact absurd (List.mem_cons_self _ _) h
    | tick resp =>
      have htl : GazeEvent.stop ∉ tl := fun hm => h (List.mem_cons_of_mem _ hm)
      simp only [List.cons_append, gazeLoop, List.append_eq]
      rw [ih _ htl]
      simp

/-- Witness for C6: a tick, then the stop signal, then a would-be tick
that contributes nothing. -/
theorem gazeLoop_stop_halts_witness :
    gazeLoop w100
        ([GazeEvent.tick (okCount 100)] ++
          GazeEvent.stop :: [GazeEvent.tick (okCount 200)]) =
      ((gazeLoop w100 [GazeEvent.tick (okCount 100)]).1 ++
          [GazeAction.stopped],
        (gazeLoop w100 [GazeEvent.tick (okCount 100)]).2) :=
  gazeLoop_stop_halts w100 [GazeEvent.tick (okCount 100)]
    [GazeEvent.tick (okCount 200)] (by decide)

/-- A watcher that has a GitHub token, a stored ETag from an earlier
fetch, and a stored count of 42. -/
def starWatcherWithETag : GitHubStargazer :=
  { w100 with token := "tok", etag := "abc", stargazersCount := 42 }

/-- C7 (counterexample): after a successful star (status 204), the
re-fetch performed by `FetchStargazerCount` does not bypass the stored
revalidation token: the request carries the stored ETag "abc", and when
the server answers 304 Not Modified the re-fetch reports the cached
count 42 instead of a freshly transferred value. -/
theorem star_refetch_sends_etag :
    Star starWatcherWithETag (StarResponse.status 204) = Except.ok () ∧
    fetchRequestETag starWatcherWithETag = some "abc" ∧
    (FetchStargazerCount starWatcherWithETag HTTPResponse.notModified).1.2 =
      42 :=
  ⟨rfl, rfl, rfl⟩

/-- C7 (amended): `Star` succeeds exactly when a token is present and the
response status is 200, 201 or 204 (every other response class yields an
error); after a successful star, the `starRepo` closure re-fetches the
count and reports success even when that re-fetch fails; and the re-fetch
uses the stored revalidation token rather than bypassing it (so a 304
answer makes it report the cached count). -/
theorem star_semantics :
    (∀ sg resp, Star sg resp = Except.ok () ↔
      (sg.token ≠ "" ∧ (resp = StarResponse.status 200 ∨
        resp = StarResponse.status 201 ∨ resp = StarResponse.status 204))) ∧
    (∀ sg sresp fresp, Star sg sresp = Except.ok () →
      (starRepo true sg sresp fresp).2 = Except.ok ()) ∧
    (∀ sg, (FetchStargazerCount sg HTTPResponse.notModified).1.2 =
        sg.stargazersCount ∧
      (sg.etag ≠ "" → fetchRequestETag sg = some sg.etag)) := by
  refine ⟨?_, ?_, ?_⟩
  · intro sg resp
    unfold Star
    by_cases ht : sg.token = ""
    · simp [ht]
    · cases resp with
      | transportError => simp [ht]
      | status code =>
        by_cases h200 : code = 200
        · simp [ht, h200]
        · by_cases h201 : code = 201
          · simp [ht, h201]
          · by_cases h204 : code = 204
            · simp [ht, h204]
            · simp [ht, h200, h201, h204]
  · intro sg sresp fresp hok
    simp only [starRepo, Bool.false_eq_true, if_false, hok]
    rfl
  · intro sg
    refine ⟨rfl, fun h => ?_⟩
    simp [fetchRequestETag, h]

/-- Witness for C7 (amended): a successful star with status 201 whose
re-fetch hits a transport error still reports success. -/
theorem star_semantics_witness :
    (starRepo true starWatcherWithETag (StarResponse.status 201)
        HTTPResponse.transportError).2 = Except.ok () :=
  star_semantics.2.1 starWatcherWithETag (StarResponse.status 201)
    HTTPResponse.transportError
    ((star_semantics.1 starWatcherWithETag (StarResponse.status 201)).mpr
      ⟨by decide, Or.inr (Or.inl rfl)⟩)

/-- C8: with approach threshold 90 and target 100, the original watcher
(target 90) processes [50, 95]: the first tick does nothing, the second
triggers the handoff — the original watcher is paused with its state
retained, and a replacement watcher with target 100, the fine interval
and a fresh count is constructed and started — without invoking the
final notification hook; a subsequent fetch of 100 processed by the
replacement watcher invokes the final hook exactly once. -/
theorem approach_handoff_run :
    NewGitHubStargazer "ianfoo/github-star-watch" 90 60000000000 [] =
      Except.ok c8First ∧
    approachRun approachCfg (ApproachPhase.first (gazeInit c8First))
        [okCount 50, okCount 95] =
      some (ApproachPhase.second c8Old c8New, [false, false]) ∧
    c8Old.tickerActive = false ∧
    c8New.StargazersTarget = 100 ∧
    c8New.stargazersCount = 0 ∧
    c8New.tickerActive = true ∧
    approachRun approachCfg (ApproachPhase.first (gazeInit c8First))
        [okCount 50, okCount 95, okCount 100] =
      some (ApproachPhase.second c8Old
          { c8New with stargazersCount := 100 }, [false, false, true]) :=
  ⟨rfl, rfl, rfl, rfl, rfl, rfl, rfl⟩

/-- C9: the public `FetchStargazerCount` always returns a nil error; when
the underlying fetch fails, it stores the error sentinel -1 as the count
and returns -1 as the supposedly up-to-date count. -/
theorem fetchStargazerCountPublic_swallows (sg : GitHubStargazer)
    (resp : HTTPResponse)
    (h : (fetchStargazersCount sg resp).isError = true) :
    (FetchStargazerCount sg resp).2 = none ∧
    ((FetchStargazerCount sg resp).1.1).stargazersCount = -1 ∧
    (FetchStargazerCount sg resp).1.2 = -1 := by
  refine ⟨rfl, ?_, ?_⟩ <;>
    cases resp with
    | transportError => rfl
    | notModified => simp [fetchStargazersCount] at h
    | badStatus => rfl
    | ok etag body =>
      cases body with
      | valid c => simp [fetchStargazersCount] at h
      | malformed => rfl

/-- Witness for C9 at a transport error. -/
theorem fetchStargazerCountPublic_swallows_witness :
    (FetchStargazerCount w100 HTTPResponse.transportError).2 = none ∧
    ((FetchStargazerCount w100 HTTPResponse.transportError).1.1).stargazersCount =
      -1 ∧
    (FetchStargazerCount w100 HTTPResponse.transportError).1.2 = -1 :=
  fetchStargazerCountPublic_swallows w100 HTTPResponse.transportError rfl

/-- C10: `Stop` on a watcher whose loop was never started (stop channel
still the nil zero value, since only `Gaze` allocates it) panics, and
after `Gaze` has started the loop, a first `Stop` closes the channel and
a second `Stop` on the same watcher panics: `close` of a nil or
already-closed channel is a Go runtime panic, modelled by `none`. -/
theorem stop_unstarted_or_twice_panics (sg : GitHubStargazer)
    (h : sg.stopCh = ChanState.nil) :
    Stop sg = none ∧
    Stop (gazeInit sg) =
      some { sg with tickerActive := true, stopCh := ChanState.closed } ∧
    Stop { sg with tickerActive := true, stopCh := ChanState.closed } = none := by
  refine ⟨?_, rfl, rfl⟩
  simp [Stop, h, closeChan]

/-- Witness for C10 at a freshly constructed watcher. -/
theorem stop_unstarted_or_twice_panics_witness :
    Stop w100 = none ∧
    Stop (gazeInit w100) =
      some { w100 with tickerActive := true, stopCh := ChanState.closed } ∧
    Stop { w100 with tickerActive := true, stopCh := ChanState.closed } =
      none :=
  stop_unstarted_or_twice_panics w100 rfl

end StarWatch
